import Mathlib

/-!
# Verification of the knot_pad_backend specification against its source

This file gives a shallow embedding, in Lean 4, of the parts of the
knot_pad_backend FastAPI application that the specification's claims talk
about: the refresh-token session lifecycle (`src/auth.py`,
`src/routes/auth.py`), the moderation/visibility logic of stories, shots and
videos (`src/routes/stories.py`, `src/routes/shots.py`,
`src/routes/videos.py`), the like/points aggregation (`src/routes/users.py`)
and the recursive comment deletion (`src/routes/comments.py`).

Modelling conventions:

* The MongoDB document store is modelled by lists of typed records, one list
  per collection, gathered in a `Db` record.  `find_one` is first match in
  list order, `update_one`/`delete_one` act on the first matching document
  (in the source they are keyed on the `_id` of the document just found,
  which is the first match), `delete_many` filters, and `insert_one`
  appends.
* Mongo `_id` values (and the user dictionary's identity, written
  `current_user["_id"]` or `current_user["id"]` in the source) are modelled
  as the `id : String` field of each record; `str(...)` coercions of ids are
  dropped since ids are already strings here.
* `datetime.utcnow()` is modelled as a `now : Nat` parameter (seconds);
  `timedelta(days=1)` is `86400`, `timedelta(days=30)` is `30 * 86400`.
* JWTs are modelled by their decoded payloads (`TokenPayload`): for a fixed
  signing secret, `jwt.encode` is injective on payloads and `jwt.decode`
  inverts it, so two tokens are equal iff their payloads are.  `jwt.decode`
  rejects an expired `exp` claim, which together with the explicit expiry
  check in `verify_token` is modelled as a single `now > exp` test; every
  decode/verification failure yields a 401, as in the source.
* HTTP error outcomes are `Except Nat` values carrying the status code.
  Handlers that mutate the store return the new `Db` alongside the outcome,
  so state changes on error paths (e.g. deleting a stale refresh token) are
  visible.
-/

namespace KnotPad

/-! ## Document-store primitives -/

/-- Mongo `find_one(query)`: the first document matching the query, if any. -/
def find_one {α : Type} (p : α → Bool) (l : List α) : Option α :=
  l.find? p

/-- Mongo `update_one({_id: <id of the first match>}, {$set: ...})`:
rewrite the first document satisfying `p` with `f`. -/
def update_first {α : Type} (p : α → Bool) (f : α → α) : List α → List α
  | [] => []
  | x :: xs => if p x then f x :: xs else x :: update_first p f xs

/-- Mongo `delete_one`: remove the first document satisfying `p`. -/
def delete_one {α : Type} (p : α → Bool) (l : List α) : List α :=
  l.eraseP p

/-- Mongo `delete_many`: remove every document satisfying `p`. -/
def delete_many {α : Type} (p : α → Bool) (l : List α) : List α :=
  l.filter (fun x => !(p x))

/-- Mongo `$addToSet`: append an element unless it is already present. -/
def add_to_set (x : String) (l : List String) : List String :=
  if x ∈ l then l else l ++ [x]

/-- Mongo `$pull`: remove every occurrence of an element. -/
def pull (x : String) (l : List String) : List String :=
  l.filter (fun y => y ≠ x)

/-! ## Data model (section 3 of the spec, `src/models.py`) -/

/-- `StoryStatus` in `src/models.py`: the moderation label shared by
stories, shots and videos. -/
inductive Status where
  | draft
  | pending
  | approved
  | rejected
deriving DecidableEq, Repr

/-- A user document (`db.users`). -/
structure UserDoc where
  id : String
  username : String
  role : String
  anonymous_name : String
  is_active : Bool
  points : Int
  referral_count : Int
deriving DecidableEq, Repr

/-- A decoded JWT payload: subject, role, expiry (`exp`) and the
`type` discriminator (`"access"` or `"refresh"`). -/
structure TokenPayload where
  sub : String
  role : String
  exp : Nat
  typ : String
deriving DecidableEq, Repr

/-- `TokenData` in `src/models.py`: the verified identity of a token. -/
structure TokenData where
  username : String
  role : String
deriving DecidableEq, Repr

/-- A refresh-token document (`db.refresh_tokens`).  `last_activity` is
optional because the source reads it with
`refresh_token_doc.get("last_activity", refresh_token_doc["created_at"])`. -/
structure RefreshTokenDoc where
  username : String
  token : TokenPayload
  created_at : Nat
  last_activity : Option Nat
  expires_at : Nat
deriving DecidableEq, Repr

/-- A story document (`db.stories`), as created in
`src/routes/stories.py` `create_story`. -/
structure StoryDoc where
  id : String
  title : String
  description : String
  author_id : String
  tags : List String
  mature_content : Bool
  status : Status
  created_at : Nat
  updated_at : Nat
  published_at : Option Nat
  rejection_reason : Option String
  likes : Int
  liked_by : List String
  total_reads : Int
deriving DecidableEq, Repr

/-- A video document (`db.videos`), as created in
`src/routes/videos.py` `create_video`. -/
structure VideoDoc where
  id : String
  caption : String
  author_id : String
  tags : List String
  mature_content : Bool
  status : Status
  likes : Int
  liked_by : List String
  views : Int
  created_at : Nat
  updated_at : Nat
  published_at : Option Nat
  rejection_reason : Option String
deriving DecidableEq, Repr

/-- A shot document (`db.shots`), as created in
`src/routes/shots.py` `create_shot`. -/
structure ShotDoc where
  id : String
  caption : String
  image_url : String
  author_id : String
  tags : List String
  mature_content : Bool
  status : Status
  likes : Int
  rejection_reason : Option String
  created_at : Nat
  updated_at : Nat
deriving DecidableEq, Repr

/-- A comment document (`db.comments`), as created in
`src/routes/comments.py` `create_comment`.  `likes` is the field summed by
the points aggregation (`$ifNull` there defaults a missing field to 0,
which this total field represents). -/
structure CommentDoc where
  id : String
  content : String
  story_id : Option String
  video_id : Option String
  chapter_id : Option String
  parent_comment_id : Option String
  user_id : String
  likes : Int
  upvotes : Int
  downvotes : Int
  created_at : Nat
  updated_at : Nat
deriving DecidableEq, Repr

/-- The document store: one list per collection used by the claims. -/
structure Db where
  users : List UserDoc
  refresh_tokens : List RefreshTokenDoc
  stories : List StoryDoc
  videos : List VideoDoc
  shots : List ShotDoc
  comments : List CommentDoc
deriving DecidableEq, Repr

/-! ## Credential/session manager (`src/auth.py`, `src/routes/auth.py`) -/

/-- `settings.access_token_expire_minutes` (`src/config.py`). -/
def access_token_expire_minutes : Nat := 30

/-- `settings.refresh_token_expire_days` (`src/config.py`). -/
def refresh_token_expire_days : Nat := 30

/-- `create_access_token` in `src/auth.py`: payload with
`type = "access"` expiring after 30 minutes. -/
def create_access_token (sub role : String) (now : Nat) : TokenPayload :=
  { sub := sub, role := role
    exp := now + access_token_expire_minutes * 60, typ := "access" }

/-- `create_refresh_token` in `src/auth.py`: payload with
`type = "refresh"` expiring after 30 days. -/
def create_refresh_token (sub role : String) (now : Nat) : TokenPayload :=
  { sub := sub, role := role
    exp := now + refresh_token_expire_days * 86400, typ := "refresh" }

/-- `verify_token` in `src/auth.py`: decode (signature assumed valid in the
payload model), check the `type` discriminator and the expiry; every
failure is a 401. -/
def verify_token (tok : TokenPayload) (token_type : String) (now : Nat) :
    Except Nat TokenData :=
  if tok.typ ≠ token_type then .error 401
  else if now > tok.exp then .error 401
  else .ok { username := tok.sub, role := tok.role }

/-- The access/refresh token pair returned by `login` and `refresh`. -/
structure TokenPair where
  access_token : TokenPayload
  refresh_token : TokenPayload
deriving DecidableEq, Repr

/-- The token-issuance and persistence tail of `login`
(`src/routes/auth.py` lines 132-149), entered once the credential check has
succeeded for `username` with role `role`: create both tokens, delete every
prior refresh-token record for the username, insert the new record. -/
def login_persist (username role : String) (now : Nat) (db : Db) :
    Db × TokenPair :=
  let access := create_access_token username role now
  let refresh := create_refresh_token username role now
  let doc : RefreshTokenDoc :=
    { username := username, token := refresh, created_at := now
      last_activity := some now
      expires_at := now + refresh_token_expire_days * 86400 }
  let kept := delete_many (fun d => d.username == username) db.refresh_tokens
  ({ db with refresh_tokens := kept ++ [doc] },
   { access_token := access, refresh_token := refresh })

/-- `get_current_user` in `src/auth.py`: verify the access token, require a
stored refresh-token record for the subject with `expires_at` in the
future, then load the user. -/
def get_current_user (tok : TokenPayload) (now : Nat) (db : Db) :
    Except Nat UserDoc :=
  match verify_token tok "access" now with
  | .error e => .error e
  | .ok token_data =>
    match find_one
        (fun d => d.username == token_data.username && decide (now < d.expires_at))
        db.refresh_tokens with
    | none => .error 401
    | some _ =>
      match find_one (fun u => u.username == token_data.username) db.users with
      | none => .error 401
      | some user => if !user.is_active then .error 400 else .ok user

/-- The `/api/auth/refresh` handler (`src/routes/auth.py` lines 152-208):
verify the presented refresh token, look up the stored record by username
and token value, reject (deleting the record) on more than one day of
inactivity or on absolute expiry, otherwise rotate both tokens and update
the stored record's token, `last_activity` and `expires_at` in one
`update_one`. -/
def refresh_token_route (presented : TokenPayload) (now : Nat) (db : Db) :
    Db × Except Nat TokenPair :=
  match verify_token presented "refresh" now with
  | .error e => (db, .error e)
  | .ok token_data =>
    match find_one
        (fun d => d.username == token_data.username && d.token == presented)
        db.refresh_tokens with
    | none => (db, .error 401)
    | some doc =>
      let last_activity := doc.last_activity.getD doc.created_at
      if now - last_activity > 86400 then
        ({ db with refresh_tokens :=
            delete_one (fun d => d == doc) db.refresh_tokens },
         .error 401)
      else if now > doc.expires_at then
        ({ db with refresh_tokens :=
            delete_one (fun d => d == doc) db.refresh_tokens },
         .error 401)
      else
        let access := create_access_token token_data.username token_data.role now
        let new_refresh :=
          create_refresh_token token_data.username token_data.role now
        let rotate := fun (d : RefreshTokenDoc) =>
          { d with token := new_refresh, last_activity := some now,
                   expires_at := now + refresh_token_expire_days * 86400 }
        let tokens := update_first (fun d => d == doc) rotate db.refresh_tokens
        ({ db with refresh_tokens := tokens },
         .ok { access_token := access, refresh_token := new_refresh })

/-! ## Content creation (`create_story`, `create_video`, `create_shot`) -/

/-- `create_story` in `src/routes/stories.py` (lines 122-173): insert a new
story with `status = APPROVED` and `published_at = now`, then `$inc` the
author's points by 1. -/
def create_story (title description : String) (tags : List String)
    (mature_content : Bool) (current_user : UserDoc) (now : Nat)
    (new_id : String) (db : Db) : Db × StoryDoc :=
  let story_doc : StoryDoc :=
    { id := new_id, title := title, description := description
      author_id := current_user.id, tags := tags
      mature_content := mature_content, status := .approved
      created_at := now, updated_at := now, published_at := some now
      rejection_reason := none, likes := 0, liked_by := [], total_reads := 0 }
  let users := update_first (fun u => u.id == current_user.id)
    (fun u => { u with points := u.points + 1 }) db.users
  ({ db with stories := db.stories ++ [story_doc], users := users }, story_doc)

/-- `create_video` in `src/routes/videos.py` (lines 130-163): insert a new
video with `status = APPROVED` (no `published_at` is stamped), then `$inc`
the author's points by 1. -/
def create_video (caption : String) (tags : List String)
    (mature_content : Bool) (current_user : UserDoc) (now : Nat)
    (new_id : String) (db : Db) : Db × VideoDoc :=
  let video : VideoDoc :=
    { id := new_id, caption := caption, author_id := current_user.id
      tags := tags, mature_content := mature_content, status := .approved
      likes := 0, liked_by := [], views := 0
      created_at := now, updated_at := now, published_at := none
      rejection_reason := none }
  let users := update_first (fun u => u.id == current_user.id)
    (fun u => { u with points := u.points + 1 }) db.users
  ({ db with videos := db.videos ++ [video], users := users }, video)

/-- `create_shot` in `src/routes/shots.py` (lines 104-136): insert a new
shot with `status = PENDING`; no points are awarded. -/
def create_shot (caption image_url : String) (tags : List String)
    (mature_content : Bool) (current_user : UserDoc) (now : Nat)
    (new_id : String) (db : Db) : Db × ShotDoc :=
  let shot : ShotDoc :=
    { id := new_id, caption := caption, image_url := image_url
      author_id := current_user.id, tags := tags
      mature_content := mature_content, status := .pending, likes := 0
      rejection_reason := none, created_at := now, updated_at := now }
  ({ db with shots := db.shots ++ [shot] }, shot)

/-! ## Retrieval endpoints relevant to the visibility invariant -/

/-- The `published_at` sort key used by the story list endpoints
(descending, missing values last). -/
def published_key (s : StoryDoc) : Nat :=
  s.published_at.getD 0

/-- Insertion step for the descending `published_at` sort. -/
def insert_desc (s : StoryDoc) : List StoryDoc → List StoryDoc
  | [] => [s]
  | x :: xs =>
    if published_key x < published_key s then s :: x :: xs
    else x :: insert_desc s xs

/-- `.sort("published_at", -1)` on a story cursor. -/
def sort_published_desc (l : List StoryDoc) : List StoryDoc :=
  l.foldr insert_desc []

/-- `get_all_stories` in `src/routes/stories.py` (lines 294-354), in the
`search = None` case: the query is `{}` — no status filter — sorted by
`published_at` descending and paginated.  The caller (authenticated or
not) only influences the `is_liked` flags, not which stories are
returned. -/
def get_all_stories (page page_size : Nat) (db : Db) : List StoryDoc :=
  ((sort_published_desc db.stories).drop ((page - 1) * page_size)).take page_size

/-- `get_feed` in `src/routes/stories.py` (lines 357-416), `search = None`
case: despite the `# Get approved stories` comment the query is `{}`, so
the feed, too, returns stories of every status. -/
def get_feed (page page_size : Nat) (db : Db) : List StoryDoc :=
  ((sort_published_desc db.stories).drop ((page - 1) * page_size)).take page_size

/-- `get_story` in `src/routes/stories.py` (lines 605-666): the single-story
endpoint, which *does* enforce the visibility rule: a non-approved story is
returned only to its author or an admin.  (The `total_reads` increment is
applied on success.) -/
def get_story (story_id : String) (current_user : Option UserDoc) (db : Db) :
    Db × Except Nat StoryDoc :=
  match find_one (fun s => s.id == story_id) db.stories with
  | none => (db, .error 404)
  | some story =>
    if story.status ≠ .approved &&
        !(match current_user with
          | none => false
          | some u => story.author_id == u.id || u.role == "admin") then
      (db, .error 403)
    else
      let stories := update_first (fun s => s.id == story_id)
        (fun s => { s with total_reads := s.total_reads + 1 }) db.stories
      ({ db with stories := stories },
       .ok { story with total_reads := story.total_reads + 1 })

/-- `get_shots` in `src/routes/shots.py` (lines 139-177): the shot list
endpoint.  `status_filter` is a caller-supplied query parameter defaulting
to `"approved"`; when the caller passes an empty filter the query is `{}`
and shots of every status are returned.  The authenticated caller's
identity only influences `is_liked` flags. -/
def get_shots (skip limit : Nat) (status_filter : Option Status)
    (_current_user : UserDoc) (db : Db) : List ShotDoc :=
  let query := fun (s : ShotDoc) =>
    match status_filter with
    | some st => s.status == st
    | none => true
  ((db.shots.filter query).drop skip).take limit

/-- `get_shot` in `src/routes/shots.py` (lines 210-242): the single-shot
endpoint.  There is no status or ownership check: any authenticated caller
receives any existing shot. -/
def get_shot (shot_id : String) (_current_user : UserDoc) (db : Db) :
    Except Nat ShotDoc :=
  match find_one (fun s => s.id == shot_id) db.shots with
  | none => .error 404
  | some shot => .ok shot

/-! ## Moderation (`approve_or_reject_shot`) -/

/-- `ShotApproval` in `src/models.py`. -/
structure ShotApproval where
  approved : Bool
  rejection_reason : Option String
deriving DecidableEq, Repr

/-- `approve_or_reject_shot` in `src/routes/shots.py` (lines 430-472):
admin decision on a shot.  The handler looks the shot up by id and applies
the `$set` unconditionally — there is no check that the shot is `pending`.
`rejection_reason` is written only when rejecting with a reason given. -/
def approve_or_reject_shot (shot_id : String) (approval : ShotApproval)
    (now : Nat) (db : Db) : Db × Except Nat ShotDoc :=
  match find_one (fun s => s.id == shot_id) db.shots with
  | none => (db, .error 404)
  | some _ =>
    let apply_set := fun (s : ShotDoc) =>
      let s := { s with
        status := if approval.approved then Status.approved else Status.rejected,
        updated_at := now }
      if !approval.approved then
        match approval.rejection_reason with
        | some reason => { s with rejection_reason := some reason }
        | none => s
      else s
    let shots := update_first (fun s => s.id == shot_id) apply_set db.shots
    let result : Except Nat ShotDoc :=
      match find_one (fun s => s.id == shot_id) shots with
      | some s => .ok s
      | none => .error 404
    ({ db with shots := shots }, result)

/-! ## Like toggling (`toggle_story_like`, `toggle_video_like`) -/

/-- The body returned by the like-toggle handlers. -/
structure LikeResult where
  liked : Bool
  total_likes : Int
  points_earned : Int
deriving DecidableEq, Repr

/-- `toggle_story_like` in `src/routes/stories.py` (lines 517-574): if the
user is in the story's `liked_by` set, `$pull` them and `$inc` likes by -1;
otherwise `$addToSet` them and `$inc` likes by 1, awarding the author one
point when the new total is a positive exact multiple of 1000. -/
def toggle_story_like (story_id user_id : String) (db : Db) :
    Db × Except Nat LikeResult :=
  match find_one (fun s => s.id == story_id) db.stories with
  | none => (db, .error 404)
  | some story =>
    if user_id ∈ story.liked_by then
      let stories := update_first (fun s => s.id == story_id)
        (fun s => { s with liked_by := pull user_id s.liked_by,
                           likes := s.likes - 1 }) db.stories
      ({ db with stories := stories },
       .ok { liked := false, total_likes := max 0 (story.likes - 1),
             points_earned := 0 })
    else
      let stories := update_first (fun s => s.id == story_id)
        (fun s => { s with liked_by := add_to_set user_id s.liked_by,
                           likes := s.likes + 1 }) db.stories
      let new_likes := story.likes + 1
      if new_likes > 0 && new_likes % 1000 == 0 then
        let users := update_first (fun u => u.id == story.author_id)
          (fun u => { u with points := u.points + 1 }) db.users
        ({ db with stories := stories, users := users },
         .ok { liked := true, total_likes := max 0 new_likes,
               points_earned := 1 })
      else
        ({ db with stories := stories },
         .ok { liked := true, total_likes := max 0 new_likes,
               points_earned := 0 })

/-- `toggle_video_like` in `src/routes/videos.py` (lines 313-370): the same
logic on the videos collection. -/
def toggle_video_like (video_id user_id : String) (db : Db) :
    Db × Except Nat LikeResult :=
  match find_one (fun v => v.id == video_id) db.videos with
  | none => (db, .error 404)
  | some video =>
    if user_id ∈ video.liked_by then
      let videos := update_first (fun v => v.id == video_id)
        (fun v => { v with liked_by := pull user_id v.liked_by,
                           likes := v.likes - 1 }) db.videos
      ({ db with videos := videos },
       .ok { liked := false, total_likes := max 0 (video.likes - 1),
             points_earned := 0 })
    else
      let videos := update_first (fun v => v.id == video_id)
        (fun v => { v with liked_by := add_to_set user_id v.liked_by,
                           likes := v.likes + 1 }) db.videos
      let new_likes := video.likes + 1
      if new_likes > 0 && new_likes % 1000 == 0 then
        let users := update_first (fun u => u.id == video.author_id)
          (fun u => { u with points := u.points + 1 }) db.users
        ({ db with videos := videos, users := users },
         .ok { liked := true, total_likes := max 0 new_likes,
               points_earned := 1 })
      else
        ({ db with videos := videos },
         .ok { liked := true, total_likes := max 0 new_likes,
               points_earned := 0 })

/-! ## Points recompute (`calculate_user_points`, `update_user_points`) -/

/-- `PointsBreakdown` in `src/models.py`. -/
structure PointsBreakdown where
  referral_points : Int
  story_points : Int
  like_points : Int
  total_points : Int
deriving DecidableEq, Repr

/-- `calculate_user_points` in `src/routes/users.py` (lines 36-97):
`referral_count * 10` plus one point per approved story plus
`total_likes // 1000` where the likes are summed (per the `$group`
aggregations) over the user's stories, videos, comments and shots.
Python's `//` is floor division, hence `Int.fdiv`. -/
def calculate_user_points (user_id : String) (db : Db) : PointsBreakdown :=
  match find_one (fun u => u.id == user_id) db.users with
  | none => { referral_points := 0, story_points := 0, like_points := 0,
              total_points := 0 }
  | some user =>
    let referral_points := user.referral_count * 10
    let stories_count : Int :=
      ((db.stories.filter
          (fun s => s.author_id == user_id && s.status == Status.approved)).length : Int)
    let story_points := stories_count * 1
    let story_likes :=
      ((db.stories.filter (fun s => s.author_id == user_id)).map
        (fun s => s.likes)).sum
    let video_likes :=
      ((db.videos.filter (fun v => v.author_id == user_id)).map
        (fun v => v.likes)).sum
    let comment_likes :=
      ((db.comments.filter (fun c => c.user_id == user_id)).map
        (fun c => c.likes)).sum
    let shot_likes :=
      ((db.shots.filter (fun s => s.author_id == user_id)).map
        (fun s => s.likes)).sum
    let total_likes := story_likes + video_likes + comment_likes + shot_likes
    let like_points := Int.fdiv total_likes 1000
    { referral_points := referral_points, story_points := story_points,
      like_points := like_points,
      total_points := referral_points + story_points + like_points }

/-- `update_user_points` in `src/routes/users.py` (lines 100-107):
recompute the breakdown and `$set` (not `$inc`) the user's stored points
to its total. -/
def update_user_points (user_id : String) (db : Db) : Db × Int :=
  let breakdown := calculate_user_points user_id db
  let users := update_first (fun u => u.id == user_id)
    (fun u => { u with points := breakdown.total_points }) db.users
  ({ db with users := users }, breakdown.total_points)

/-! ## Comment deletion (`delete_comment`, `delete_comment_recursive`) -/

/-- `delete_comment_recursive` in `src/routes/comments.py` (lines 226-237):
find all replies of the comment, recursively delete each, then delete the
comment itself.  The Python recursion is unbounded; the embedding carries a
fuel argument, and the theorems show that a fuel exceeding the collection
size reproduces every terminating run. -/
def delete_comment_recursive (fuel : Nat) (comment_id : String)
    (db : List CommentDoc) : List CommentDoc :=
  match fuel with
  | 0 => db
  | fuel + 1 =>
    let replies := db.filter (fun c => c.parent_comment_id == some comment_id)
    let db := replies.foldl
      (fun acc reply => delete_comment_recursive fuel reply.id acc) db
    delete_one (fun c => c.id == comment_id) db

/-- `delete_comment` in `src/routes/comments.py` (lines 199-223): look the
comment up, check ownership (owner or admin), then cascade-delete. -/
def delete_comment (comment_id : String) (current_user : UserDoc) (db : Db) :
    Db × Except Nat String :=
  match find_one (fun c => c.id == comment_id) db.comments with
  | none => (db, .error 404)
  | some comment =>
    if comment.user_id != current_user.id && current_user.role != "admin" then
      (db, .error 403)
    else
      let comments :=
        delete_comment_recursive (db.comments.length + 1) comment_id db.comments
      ({ db with comments := comments }, .ok "Comment deleted successfully")

/-! ## Lemma kit for the store primitives -/

theorem find_one_spec {α : Type} {p : α → Bool} {l : List α} {a : α}
    (h : find_one p l = some a) : a ∈ l ∧ p a = true :=
  ⟨List.mem_of_find?_eq_some h, List.find?_some h⟩

theorem find_one_cons {α : Type} {p : α → Bool} {x : α} {xs : List α} :
    find_one p (x :: xs) = if p x then some x else find_one p xs := by
  cases h : p x <;> simp [find_one, List.find?, h]

theorem find_one_nil {α : Type} {p : α → Bool} : find_one p ([] : List α) = none :=
  rfl

theorem find_one_append_left_none {α : Type} {p : α → Bool} {l1 l2 : List α}
    (h : ∀ x ∈ l1, p x = false) :
    find_one p (l1 ++ l2) = find_one p l2 := by
  induction l1 with
  | nil => rfl
  | cons x xs ih =>
    have hx : p x = false := h x (by simp)
    simp only [List.cons_append, find_one_cons, hx, if_false]
    exact ih fun y hy => h y (by simp [hy])

theorem update_first_append_left {α : Type} {p : α → Bool} {f : α → α}
    {l1 l2 : List α} (h : ∀ x ∈ l1, p x = false) :
    update_first p f (l1 ++ l2) = l1 ++ update_first p f l2 := by
  induction l1 with
  | nil => rfl
  | cons x xs ih =>
    have hx : p x = false := h x (by simp)
    simp only [List.cons_append, update_first, hx, Bool.false_eq_true,
      if_false, List.cons.injEq, true_and]
    exact ih fun y hy => h y (by simp [hy])

theorem find_one_update_first {α : Type} {p : α → Bool} {f : α → α}
    {l : List α} {a : α} (h : find_one p l = some a) (hf : p (f a) = true) :
    find_one p (update_first p f l) = some (f a) := by
  induction l with
  | nil => simp [find_one, List.find?] at h
  | cons x xs ih =>
    by_cases hx : p x = true
    · have : a = x := by
        rw [find_one_cons, if_pos hx] at h
        exact (Option.some.injEq _ _ ▸ h.symm :)
      subst this
      simp [update_first, hx, find_one_cons, hf]
    · have hx' : p x = false := by simpa using hx
      rw [find_one_cons, if_neg (by simp [hx'])] at h
      simp [update_first, hx', find_one_cons, ih h]

theorem filter_delete_many {α : Type} {p : α → Bool} {l : List α} :
    (delete_many p l).filter p = [] := by
  simp only [delete_many, List.filter_filter]
  have : (fun a => p a && !p a) = fun _ => false := by
    funext a; cases p a <;> rfl
  simp [this]

theorem mem_delete_many {α : Type} {p : α → Bool} {l : List α} {x : α}
    (h : x ∈ delete_many p l) : x ∈ l ∧ p x = false := by
  have := List.mem_filter.mp h
  exact ⟨this.1, by simpa using this.2⟩

/-! ## Claim C3: session uniqueness and the access-token liveness check -/

/-- Claim C3, counterexample: the claim requires that authentication with
an access token fail with a 401 when the subject's stored refresh-token
record is not *recently active*.  In `get_current_user` the only check on
the stored record is `expires_at > now`; here the record's `last_activity`
is 1,000,000 - 0 seconds (more than one day) in the past, yet
authentication succeeds. -/
theorem c3_counterexample_stale_session_authenticates :
    let alice : UserDoc :=
      { id := "u1", username := "alice", role := "user",
        anonymous_name := "HappyFox1", is_active := true, points := 0,
        referral_count := 0 }
    let stored : RefreshTokenDoc :=
      { username := "alice",
        token := { sub := "alice", role := "user", exp := 10000000,
                   typ := "refresh" },
        created_at := 0, last_activity := some 0, expires_at := 10000000 }
    let db : Db :=
      { users := [alice], refresh_tokens := [stored], stories := [],
        videos := [], shots := [], comments := [] }
    let access : TokenPayload :=
      { sub := "alice", role := "user", exp := 2000000, typ := "access" }
    1000000 - (stored.last_activity.getD stored.created_at) > 86400
      ∧ get_current_user access 1000000 db = .ok alice := by
  constructor
  · decide
  · rfl

/-- Claim C3 (amended): after a successful login exactly one refresh-token
record exists for the username (all prior records are deleted first); and a
request authenticated with an access token succeeds only if a stored
refresh-token record for its subject exists whose `expires_at` lies in the
future.  (The source performs no recent-activity check during access-token
authentication, so that part of the original claim is dropped.) -/
theorem c3_login_purges_and_auth_requires_unexpired_record
    (u r : String) (now : Nat) (db : Db)
    (tok : TokenPayload) (now2 : Nat) (db2 : Db) (user : UserDoc)
    (hok : get_current_user tok now2 db2 = .ok user) :
    ((login_persist u r now db).1.refresh_tokens.filter
        (fun d => d.username == u))
      = [{ username := u, token := create_refresh_token u r now,
           created_at := now, last_activity := some now,
           expires_at := now + refresh_token_expire_days * 86400 }]
    ∧ ∃ d ∈ db2.refresh_tokens, d.username = tok.sub ∧ now2 < d.expires_at := by
  constructor
  · show ((delete_many (fun d : RefreshTokenDoc => d.username == u)
          db.refresh_tokens
        ++ [_]).filter (fun d : RefreshTokenDoc => d.username == u)) = _
    rw [List.filter_append, filter_delete_many]
    simp
  · unfold get_current_user at hok
    cases hv : verify_token tok "access" now2 with
    | error e => simp only [hv] at hok; exact Except.noConfusion hok
    | ok td =>
      simp only [hv] at hok
      have hsub : td.username = tok.sub := by
        unfold verify_token at hv
        by_cases h1 : tok.typ ≠ "access"
        · simp [h1] at hv
        · by_cases h2 : now2 > tok.exp
          · simp [h1, h2] at hv
          · simp [h1, h2] at hv
            rw [← hv]
      cases hf : find_one
          (fun d => d.username == td.username && decide (now2 < d.expires_at))
          db2.refresh_tokens with
      | none => simp only [hf] at hok; exact Except.noConfusion hok
      | some d =>
        have hd := find_one_spec hf
        refine ⟨d, hd.1, ?_, ?_⟩
        · have := hd.2
          simp only [Bool.and_eq_true, beq_iff_eq, decide_eq_true_eq] at this
          rw [this.1, hsub]
        · have := hd.2
          simp only [Bool.and_eq_true, beq_iff_eq, decide_eq_true_eq] at this
          exact this.2

/-- Witness for `c3_login_purges_and_auth_requires_unexpired_record` at a
concrete login state and a concrete authenticated request. -/
theorem c3_witness :
    let alice : UserDoc :=
      { id := "u1", username := "alice", role := "user",
        anonymous_name := "HappyFox1", is_active := true, points := 0,
        referral_count := 0 }
    let stored : RefreshTokenDoc :=
      { username := "alice",
        token := { sub := "alice", role := "user", exp := 500000,
                   typ := "refresh" },
        created_at := 100, last_activity := some 100, expires_at := 500000 }
    let db2 : Db :=
      { users := [alice], refresh_tokens := [stored], stories := [],
        videos := [], shots := [], comments := [] }
    let access : TokenPayload :=
      { sub := "alice", role := "user", exp := 5000, typ := "access" }
    ((login_persist "bob" "user" 42 db2).1.refresh_tokens.filter
        (fun d => d.username == "bob"))
      = [{ username := "bob", token := create_refresh_token "bob" "user" 42,
           created_at := 42, last_activity := some 42,
           expires_at := 42 + refresh_token_expire_days * 86400 }]
    ∧ ∃ d ∈ db2.refresh_tokens, d.username = access.sub ∧ 200 < d.expires_at :=
  c3_login_purges_and_auth_requires_unexpired_record "bob" "user" 42 _ _ 200 _
    { id := "u1", username := "alice", role := "user",
      anonymous_name := "HappyFox1", is_active := true, points := 0,
      referral_count := 0 }
    (by rfl)

theorem verify_token_error_code {tok : TokenPayload} {ty : String} {now : Nat}
    {e : Nat} (h : verify_token tok ty now = .error e) : e = 401 := by
  unfold verify_token at h
  by_cases h1 : tok.typ ≠ ty
  · simp [h1] at h; omega
  · by_cases h2 : now > tok.exp
    · simp [h1, h2] at h; omega
    · simp [h1, h2] at h

theorem verify_token_ok_eq {tok : TokenPayload} {ty : String} {now : Nat}
    {td : TokenData} (h : verify_token tok ty now = .ok td) :
    td = { username := tok.sub, role := tok.role } := by
  unfold verify_token at h
  by_cases h1 : tok.typ ≠ ty
  · simp [h1] at h
  · by_cases h2 : now > tok.exp
    · simp [h1, h2] at h
    · simp [h1, h2] at h
      exact h.symm

/-! ## Claims C4 and C5: refresh rotation, replay, and inactivity -/

theorem refresh_route_result_verify_error {presented : TokenPayload}
    {now : Nat} {db : Db} {e : Nat}
    (h : verify_token presented "refresh" now = .error e) :
    (refresh_token_route presented now db).2 = .error e := by
  unfold refresh_token_route
  simp only [h]

theorem refresh_route_result_find_none {presented : TokenPayload}
    {now : Nat} {db : Db} {td : TokenData}
    (h : verify_token presented "refresh" now = .ok td)
    (hf : find_one (fun d => d.username == td.username && d.token == presented)
        db.refresh_tokens = none) :
    (refresh_token_route presented now db).2 = .error 401 := by
  unfold refresh_token_route
  simp only [h, hf]

/-- Claim C4: after a successful refresh, the stored record's token equals
the newly issued refresh token with `last_activity` and `expires_at`
updated in the same single update, and replaying the pre-rotation refresh
token afterwards fails with a 401.  The hypotheses make the first refresh
succeed: the refresh happens strictly after the login (`t0 < t1`, so the
rotated token differs from the old one) and within the inactivity and
expiry windows. -/
theorem c4_refresh_rotates_and_blocks_replay
    (u r : String) (t0 t1 : Nat) (db : Db)
    (h01 : t0 < t1) (hact : t1 ≤ t0 + 86400) :
    (refresh_token_route (login_persist u r t0 db).2.refresh_token t1
        (login_persist u r t0 db).1).2
      = .ok { access_token := create_access_token u r t1,
              refresh_token := create_refresh_token u r t1 }
    ∧ ((refresh_token_route (login_persist u r t0 db).2.refresh_token t1
          (login_persist u r t0 db).1).1.refresh_tokens.filter
            (fun d => d.username == u))
        = [{ username := u, token := create_refresh_token u r t1,
             created_at := t0, last_activity := some t1,
             expires_at := t1 + refresh_token_expire_days * 86400 }]
    ∧ ∀ t2 : Nat,
        (refresh_token_route (login_persist u r t0 db).2.refresh_token t2
          (refresh_token_route (login_persist u r t0 db).2.refresh_token t1
            (login_persist u r t0 db).1).1).2 = .error 401 := by
  have hexp : ¬ (t1 > t0 + refresh_token_expire_days * 86400) := by
    unfold refresh_token_expire_days; omega
  have hrt : (login_persist u r t0 db).2.refresh_token
      = create_refresh_token u r t0 := rfl
  have hs0tokens : (login_persist u r t0 db).1.refresh_tokens
      = delete_many (fun d : RefreshTokenDoc => d.username == u)
          db.refresh_tokens
        ++ [{ username := u, token := create_refresh_token u r t0,
              created_at := t0, last_activity := some t0,
              expires_at := t0 + refresh_token_expire_days * 86400 }] := rfl
  have hkeptu : ∀ x ∈ delete_many (fun d : RefreshTokenDoc => d.username == u)
      db.refresh_tokens, (x.username == u) = false := by
    intro x hx; exact (mem_delete_many hx).2
  have hkeptne : ∀ x ∈ delete_many (fun d : RefreshTokenDoc => d.username == u)
      db.refresh_tokens,
      (x == ({ username := u, token := create_refresh_token u r t0,
               created_at := t0, last_activity := some t0,
               expires_at := t0 + refresh_token_expire_days * 86400 }
             : RefreshTokenDoc)) = false := by
    intro x hx
    have hu := hkeptu x hx
    rw [beq_eq_false_iff_ne]
    intro hcontra
    rw [hcontra] at hu
    simp at hu
  have hver : verify_token (create_refresh_token u r t0) "refresh" t1
      = .ok { username := u, role := r } := by
    simp [verify_token, create_refresh_token, hexp]
  have hfind1 : find_one
      (fun d => d.username == u && d.token == create_refresh_token u r t0)
      ((login_persist u r t0 db).1.refresh_tokens)
      = some { username := u, token := create_refresh_token u r t0,
               created_at := t0, last_activity := some t0,
               expires_at := t0 + refresh_token_expire_days * 86400 } := by
    rw [hs0tokens,
      find_one_append_left_none (by
        intro x hx
        rw [hkeptu x hx]
        rfl)]
    simp [find_one_cons]
  have hinact : ¬ (86400 < t1 - t0) := by omega
  have hupd : update_first
      (fun d => d == ({ username := u, token := create_refresh_token u r t0,
                        created_at := t0, last_activity := some t0,
                        expires_at := t0 + refresh_token_expire_days * 86400 }
                      : RefreshTokenDoc))
      (fun d => { d with token := create_refresh_token u r t1,
                         last_activity := some t1,
                         expires_at := t1 + refresh_token_expire_days * 86400 })
      ((login_persist u r t0 db).1.refresh_tokens)
      = delete_many (fun d : RefreshTokenDoc => d.username == u)
          db.refresh_tokens
        ++ [{ username := u, token := create_refresh_token u r t1,
              created_at := t0, last_activity := some t1,
              expires_at := t1 + refresh_token_expire_days * 86400 }] := by
    rw [hs0tokens, update_first_append_left hkeptne]
    simp [update_first]
  have hm2 : (refresh_token_route (create_refresh_token u r t0) t1
      (login_persist u r t0 db).1).2
      = .ok { access_token := create_access_token u r t1,
              refresh_token := create_refresh_token u r t1 } := by
    unfold refresh_token_route
    simp only [hver, hfind1, Option.getD_some]
    rw [if_neg hinact, if_neg (by simpa using hexp)]
  have hm1 : (refresh_token_route (create_refresh_token u r t0) t1
      (login_persist u r t0 db).1).1.refresh_tokens
      = delete_many (fun d : RefreshTokenDoc => d.username == u)
          db.refresh_tokens
        ++ [{ username := u, token := create_refresh_token u r t1,
              created_at := t0, last_activity := some t1,
              expires_at := t1 + refresh_token_expire_days * 86400 }] := by
    unfold refresh_token_route
    simp only [hver, hfind1, Option.getD_some]
    rw [if_neg hinact, if_neg (by simpa using hexp)]
    exact hupd
  refine ⟨?_, ?_, ?_⟩
  · rw [hrt]; exact hm2
  · rw [hrt, hm1]
    rw [List.filter_append, filter_delete_many]
    simp
  · intro t2
    rw [hrt]
    have hne : ((create_refresh_token u r t1)
        == create_refresh_token u r t0) = false := by
      rw [beq_eq_false_iff_ne]
      intro hcontra
      have := congrArg TokenPayload.exp hcontra
      simp [create_refresh_token] at this
      omega
    have hfind2 : find_one
        (fun d => d.username == u && d.token == create_refresh_token u r t0)
        ((refresh_token_route (create_refresh_token u r t0) t1
          (login_persist u r t0 db).1).1.refresh_tokens) = none := by
      rw [hm1,
        find_one_append_left_none (by
          intro x hx
          rw [hkeptu x hx]
          rfl)]
      simp [find_one_cons, find_one_nil, hne]
    cases hv2 : verify_token (create_refresh_token u r t0) "refresh" t2 with
    | error e =>
      rw [refresh_route_result_verify_error hv2, verify_token_error_code hv2]
    | ok td =>
      have htd := verify_token_ok_eq hv2
      subst htd
      exact refresh_route_result_find_none hv2 hfind2

/-- Witness for `c4_refresh_rotates_and_blocks_replay`: login at time 100,
refresh at time 200. -/
theorem c4_witness :
    let db0 : Db := { users := [], refresh_tokens := [], stories := [],
                      videos := [], shots := [], comments := [] }
    (refresh_token_route (login_persist "alice" "user" 100 db0).2.refresh_token
        200 (login_persist "alice" "user" 100 db0).1).2
      = .ok { access_token := create_access_token "alice" "user" 200,
              refresh_token := create_refresh_token "alice" "user" 200 }
    ∧ ((refresh_token_route (login_persist "alice" "user" 100 db0).2.refresh_token
          200 (login_persist "alice" "user" 100 db0).1).1.refresh_tokens.filter
            (fun d => d.username == "alice"))
        = [{ username := "alice",
             token := create_refresh_token "alice" "user" 200,
             created_at := 100, last_activity := some 200,
             expires_at := 200 + refresh_token_expire_days * 86400 }]
    ∧ ∀ t2 : Nat,
        (refresh_token_route (login_persist "alice" "user" 100 db0).2.refresh_token
          t2 (refresh_token_route
                (login_persist "alice" "user" 100 db0).2.refresh_token 200
                (login_persist "alice" "user" 100 db0).1).1).2 = .error 401 :=
  c4_refresh_rotates_and_blocks_replay "alice" "user" 100 200 _
    (by decide) (by decide)

/-- Claim C5: a stored refresh-token record whose `last_activity` lies more
than one day in the past is rejected by `refresh` with a 401 even though
its absolute expiry `expires_at` has not passed — the two timeouts are
checked independently and inactivity alone suffices for rejection. -/
theorem c5_refresh_rejects_inactive_session
    (presented : TokenPayload) (now : Nat) (db : Db) (doc : RefreshTokenDoc)
    (hty : presented.typ = "refresh")
    (hexp : now ≤ presented.exp)
    (hfind : find_one
        (fun d => d.username == presented.sub && d.token == presented)
        db.refresh_tokens = some doc)
    (hstale : now - doc.last_activity.getD doc.created_at > 86400)
    (_hlive : now ≤ doc.expires_at) :
    (refresh_token_route presented now db).2 = .error 401 := by
  have hver : verify_token presented "refresh" now
      = .ok { username := presented.sub, role := presented.role } := by
    simp [verify_token, hty]
    omega
  unfold refresh_token_route
  rw [hver]
  simp only [hfind]
  rw [if_pos hstale]

/-- Witness for `c5_refresh_rejects_inactive_session`: a record last active
at time 0 presented at time 100000 (over a day later) with expiry far in
the future. -/
theorem c5_witness :
    let tok : TokenPayload :=
      { sub := "alice", role := "user", exp := 9000000, typ := "refresh" }
    let doc : RefreshTokenDoc :=
      { username := "alice", token := tok, created_at := 0,
        last_activity := some 0, expires_at := 9000000 }
    let db : Db := { users := [], refresh_tokens := [doc], stories := [],
                     videos := [], shots := [], comments := [] }
    (refresh_token_route tok 100000 db).2 = .error 401 :=
  c5_refresh_rejects_inactive_session _ 100000 _
    { username := "alice",
      token := { sub := "alice", role := "user", exp := 9000000,
                 typ := "refresh" },
      created_at := 0, last_activity := some 0, expires_at := 9000000 }
    rfl (by decide) (by rfl) (by decide) (by decide)

/-! ## Claim C1: the visibility invariant against the retrieval endpoints -/

/-- Claim C1, evaluation at the failing input: a pending shot authored by
user `uA` is returned in full by the single-shot endpoint to an
authenticated caller `uB` who is neither its author nor an admin, and a
pending story is returned by both the story list endpoint and the feed
endpoint (whose query lacks any status filter, contradicting its own
`# Get approved stories` comment).  The claim asserts no public retrieval
endpoint returns such items to such callers. -/
theorem c1_nonapproved_items_returned :
    let shot1 : ShotDoc :=
      { id := "s1", caption := "cap", image_url := "img", author_id := "uA",
        tags := [], mature_content := false, status := .pending, likes := 0,
        rejection_reason := none, created_at := 10, updated_at := 10 }
    let story1 : StoryDoc :=
      { id := "st1", title := "T", description := "D", author_id := "uA",
        tags := [], mature_content := false, status := .pending,
        created_at := 5, updated_at := 5, published_at := none,
        rejection_reason := none, likes := 0, liked_by := [],
        total_reads := 0 }
    let userB : UserDoc :=
      { id := "uB", username := "bob", role := "user",
        anonymous_name := "AnonB", is_active := true, points := 0,
        referral_count := 0 }
    let db : Db :=
      { users := [userB], refresh_tokens := [], stories := [story1],
        videos := [], shots := [shot1], comments := [] }
    shot1.status ≠ Status.approved
    ∧ userB.id ≠ shot1.author_id
    ∧ userB.role ≠ "admin"
    ∧ get_shot "s1" userB db = .ok shot1
    ∧ shot1 ∈ get_shots 0 20 none userB db
    ∧ story1.status ≠ Status.approved
    ∧ story1 ∈ get_all_stories 1 10 db
    ∧ story1 ∈ get_feed 1 10 db := by
  refine ⟨by decide, by decide, by decide, by rfl, by decide, by decide,
    by decide, by decide⟩

/-! ## Claim C2: the admin approval operation and non-pending shots -/

/-- Claim C2, counterexample: `approve_or_reject_shot` has no
pending-only guard.  A shot whose status is `approved` (not `pending`) is
rejected with a reason, and its stored document is mutated — status,
rejection_reason and updated_at all change — where the claim requires the
request to be rejected with the document left unchanged. -/
theorem c2_counterexample_nonpending_shot_mutated :
    let shot2 : ShotDoc :=
      { id := "s2", caption := "c", image_url := "i", author_id := "uA",
        tags := [], mature_content := false, status := .approved, likes := 3,
        rejection_reason := none, created_at := 7, updated_at := 7 }
    let db : Db :=
      { users := [], refresh_tokens := [], stories := [], videos := [],
        shots := [shot2], comments := [] }
    let approval : ShotApproval :=
      { approved := false, rejection_reason := some "bad" }
    shot2.status ≠ Status.pending
    ∧ (approve_or_reject_shot "s2" approval 99 db).1.shots ≠ db.shots
    ∧ (approve_or_reject_shot "s2" approval 99 db).2
        = .ok { shot2 with status := .rejected,
                           rejection_reason := some "bad",
                           updated_at := 99 } := by
  refine ⟨by decide, by decide, by rfl⟩

/-- Claim C2 (amended): the admin approve/reject operation applies to a
shot in *any* status — there is no pending-only guard.  It sets the status
to `approved` or `rejected` according to the decision, stamps
`updated_at`, stores the rejection reason exactly when rejecting with a
reason provided, and leaves the other fields unchanged; the updated
document is both stored and returned. -/
theorem c2_admin_decision_applies_in_any_status
    (shot_id : String) (approval : ShotApproval) (now : Nat) (db : Db)
    (shot : ShotDoc)
    (hfind : find_one (fun s => s.id == shot_id) db.shots = some shot) :
    (approve_or_reject_shot shot_id approval now db).2
      = .ok { shot with
          status := if approval.approved then Status.approved
                    else Status.rejected,
          updated_at := now,
          rejection_reason :=
            if !approval.approved && approval.rejection_reason.isSome
            then approval.rejection_reason else shot.rejection_reason }
    ∧ find_one (fun s => s.id == shot_id)
        (approve_or_reject_shot shot_id approval now db).1.shots
      = some { shot with
          status := if approval.approved then Status.approved
                    else Status.rejected,
          updated_at := now,
          rejection_reason :=
            if !approval.approved && approval.rejection_reason.isSome
            then approval.rejection_reason else shot.rejection_reason } := by
  have hid : (shot.id == shot_id) = true := (find_one_spec hfind).2
  cases hap : approval.approved with
  | true =>
    have hstep : find_one (fun s => s.id == shot_id)
        (update_first (fun s => s.id == shot_id)
          (fun s =>
            let s := { s with
              status := if approval.approved then Status.approved
                        else Status.rejected,
              updated_at := now }
            if !approval.approved then
              match approval.rejection_reason with
              | some reason => { s with rejection_reason := some reason }
              | none => s
            else s) db.shots)
        = some { shot with status := Status.approved, updated_at := now } := by
      rw [find_one_update_first hfind (by simpa [hap] using hid)]
      simp [hap]
    unfold approve_or_reject_shot
    simp only [hfind, hstep]
    simp [hap]
  | false =>
    cases hrr : approval.rejection_reason with
    | none =>
      have hstep : find_one (fun s => s.id == shot_id)
          (update_first (fun s => s.id == shot_id)
            (fun s =>
              let s := { s with
                status := if approval.approved then Status.approved
                          else Status.rejected,
                updated_at := now }
              if !approval.approved then
                match approval.rejection_reason with
                | some reason => { s with rejection_reason := some reason }
                | none => s
              else s) db.shots)
          = some { shot with status := Status.rejected, updated_at := now } := by
        rw [find_one_update_first hfind (by simpa [hap, hrr] using hid)]
        simp [hap, hrr]
      unfold approve_or_reject_shot
      simp only [hfind, hstep]
      simp [hap, hrr]
    | some reason =>
      have hstep : find_one (fun s => s.id == shot_id)
          (update_first (fun s => s.id == shot_id)
            (fun s =>
              let s := { s with
                status := if approval.approved then Status.approved
                          else Status.rejected,
                updated_at := now }
              if !approval.approved then
                match approval.rejection_reason with
                | some reason => { s with rejection_reason := some reason }
                | none => s
              else s) db.shots)
          = some { shot with status := Status.rejected, updated_at := now,
                             rejection_reason := some reason } := by
        rw [find_one_update_first hfind (by simpa [hap, hrr] using hid)]
        simp [hap, hrr]
      unfold approve_or_reject_shot
      simp only [hfind, hstep]
      simp [hap, hrr]

/-- Witness for `c2_admin_decision_applies_in_any_status`: approving a
pending shot. -/
theorem c2_witness :
    let shot3 : ShotDoc :=
      { id := "s3", caption := "c", image_url := "i", author_id := "uA",
        tags := [], mature_content := false, status := .pending, likes := 0,
        rejection_reason := some "old", created_at := 1, updated_at := 1 }
    let db : Db :=
      { users := [], refresh_tokens := [], stories := [], videos := [],
        shots := [shot3], comments := [] }
    let approval : ShotApproval := { approved := true,
                                     rejection_reason := none }
    (approve_or_reject_shot "s3" approval 50 db).2
      = .ok { shot3 with
          status := if approval.approved then Status.approved
                    else Status.rejected,
          updated_at := 50,
          rejection_reason :=
            if !approval.approved && approval.rejection_reason.isSome
            then approval.rejection_reason else shot3.rejection_reason }
    ∧ find_one (fun s => s.id == "s3")
        (approve_or_reject_shot "s3" approval 50 db).1.shots
      = some { shot3 with
          status := if approval.approved then Status.approved
                    else Status.rejected,
          updated_at := 50,
          rejection_reason :=
            if !approval.approved && approval.rejection_reason.isSome
            then approval.rejection_reason else shot3.rejection_reason } :=
  c2_admin_decision_applies_in_any_status "s3"
    { approved := true, rejection_reason := none } 50 _
    { id := "s3", caption := "c", image_url := "i", author_id := "uA",
      tags := [], mature_content := false, status := .pending, likes := 0,
      rejection_reason := some "old", created_at := 1, updated_at := 1 }
    (by rfl)

/-! ## Claims C6 and C7: like toggling and milestone points -/

/-- Claim C6: for a story or video with like count `n` (non-negative, as
every reachable count is) and a user not in its liked-by set, a like
returns `points_earned = 1` and increments the stored author's points by
exactly 1 iff `n + 1` is an exact multiple of 1000, and awards 0 points
otherwise; every unlike awards 0 points and leaves the users collection
unchanged. -/
theorem c6_like_milestone_points :
    (∀ (db : Db) (sid uid : String) (story : StoryDoc),
      find_one (fun s => s.id == sid) db.stories = some story →
      0 ≤ story.likes →
      ((uid ∉ story.liked_by →
        (toggle_story_like sid uid db).2
          = .ok { liked := true, total_likes := story.likes + 1,
                  points_earned :=
                    if (story.likes + 1) % 1000 = 0 then 1 else 0 }
        ∧ ∀ author : UserDoc,
            find_one (fun w => w.id == story.author_id) db.users
              = some author →
            find_one (fun w => w.id == story.author_id)
                (toggle_story_like sid uid db).1.users
              = some { author with points := author.points
                  + (if (story.likes + 1) % 1000 = 0 then 1 else 0) })
      ∧ (uid ∈ story.liked_by →
          (toggle_story_like sid uid db).2
            = .ok { liked := false, total_likes := max 0 (story.likes - 1),
                    points_earned := 0 }
          ∧ (toggle_story_like sid uid db).1.users = db.users)))
    ∧ (∀ (db : Db) (vid uid : String) (video : VideoDoc),
      find_one (fun v => v.id == vid) db.videos = some video →
      0 ≤ video.likes →
      ((uid ∉ video.liked_by →
        (toggle_video_like vid uid db).2
          = .ok { liked := true, total_likes := video.likes + 1,
                  points_earned :=
                    if (video.likes + 1) % 1000 = 0 then 1 else 0 }
        ∧ ∀ author : UserDoc,
            find_one (fun w => w.id == video.author_id) db.users
              = some author →
            find_one (fun w => w.id == video.author_id)
                (toggle_video_like vid uid db).1.users
              = some { author with points := author.points
                  + (if (video.likes + 1) % 1000 = 0 then 1 else 0) })
      ∧ (uid ∈ video.liked_by →
          (toggle_video_like vid uid db).2
            = .ok { liked := false, total_likes := max 0 (video.likes - 1),
                    points_earned := 0 }
          ∧ (toggle_video_like vid uid db).1.users = db.users))) := by
  constructor
  · intro db sid uid story hfind hpos
    have hgt : (0 : Int) < story.likes + 1 := by omega
    have hmax : max (0 : Int) (story.likes + 1) = story.likes + 1 := by omega
    constructor
    · intro hnot
      by_cases hm : (story.likes + 1) % 1000 = 0
      · constructor
        · unfold toggle_story_like
          simp only [hfind]
          rw [if_neg hnot]
          simp [hgt, hm, hmax]
        · intro author hauthor
          unfold toggle_story_like
          simp only [hfind]
          rw [if_neg hnot]
          rw [if_pos (by simp [hgt, hm])]
          rw [find_one_update_first hauthor (by simpa using
            (find_one_spec hauthor).2)]
          simp [hm]
      · constructor
        · unfold toggle_story_like
          simp only [hfind]
          rw [if_neg hnot]
          simp [hgt, hm, hmax]
        · intro author hauthor
          unfold toggle_story_like
          simp only [hfind]
          rw [if_neg hnot]
          rw [if_neg (by simp [hm])]
          simp [hm, hauthor]
    · intro hmem
      unfold toggle_story_like
      simp only [hfind]
      rw [if_pos hmem]
      exact ⟨rfl, rfl⟩
  · intro db vid uid video hfind hpos
    have hgt : (0 : Int) < video.likes + 1 := by omega
    have hmax : max (0 : Int) (video.likes + 1) = video.likes + 1 := by omega
    constructor
    · intro hnot
      by_cases hm : (video.likes + 1) % 1000 = 0
      · constructor
        · unfold toggle_video_like
          simp only [hfind]
          rw [if_neg hnot]
          simp [hgt, hm, hmax]
        · intro author hauthor
          unfold toggle_video_like
          simp only [hfind]
          rw [if_neg hnot]
          rw [if_pos (by simp [hgt, hm])]
          rw [find_one_update_first hauthor (by simpa using
            (find_one_spec hauthor).2)]
          simp [hm]
      · constructor
        · unfold toggle_video_like
          simp only [hfind]
          rw [if_neg hnot]
          simp [hgt, hm, hmax]
        · intro author hauthor
          unfold toggle_video_like
          simp only [hfind]
          rw [if_neg hnot]
          rw [if_neg (by simp [hm])]
          simp [hm, hauthor]
    · intro hmem
      unfold toggle_video_like
      simp only [hfind]
      rw [if_pos hmem]
      exact ⟨rfl, rfl⟩

/-- Witness for `c6_like_milestone_points`: liking a story with 999 likes
crosses the 1000 milestone, pays `points_earned = 1` and bumps the stored
author from 5 to 6 points. -/
theorem c6_witness :
    let author : UserDoc :=
      { id := "uA", username := "a", role := "user", anonymous_name := "A",
        is_active := true, points := 5, referral_count := 0 }
    let story : StoryDoc :=
      { id := "st9", title := "t", description := "d", author_id := "uA",
        tags := [], mature_content := false, status := .approved,
        created_at := 0, updated_at := 0, published_at := some 0,
        rejection_reason := none, likes := 999, liked_by := [],
        total_reads := 0 }
    let db : Db :=
      { users := [author], refresh_tokens := [], stories := [story],
        videos := [], shots := [], comments := [] }
    (toggle_story_like "st9" "uX" db).2
      = .ok { liked := true, total_likes := (999 : Int) + 1,
              points_earned := if ((999 : Int) + 1) % 1000 = 0 then 1 else 0 }
    ∧ find_one (fun w => w.id == "uA")
        (toggle_story_like "st9" "uX" db).1.users
      = some { id := "uA", username := "a", role := "user",
               anonymous_name := "A", is_active := true,
               points := 5 + (if ((999 : Int) + 1) % 1000 = 0 then 1 else 0),
               referral_count := 0 } := by
  intro author story db
  have hs := (c6_like_milestone_points.1 db "st9" "uX" story (by rfl)
    (by decide)).1 (by decide)
  exact ⟨hs.1, hs.2 author (by rfl)⟩

/-- Claim C7: the like toggle increments the stored count exactly when the
user is absent from the liked-by set and decrements it exactly when
present (second conjunct), so liking and then unliking returns the stored
story to its original state with the user absent from its liked-by set
(first conjunct). -/
theorem c7_like_unlike_roundtrip
    (db : Db) (sid uid : String) (story : StoryDoc)
    (hfind : find_one (fun s => s.id == sid) db.stories = some story)
    (hnot : uid ∉ story.liked_by) :
    find_one (fun s => s.id == sid)
        (toggle_story_like sid uid (toggle_story_like sid uid db).1).1.stories
      = some story
    ∧ ∀ (db2 : Db) (story2 : StoryDoc),
        find_one (fun s => s.id == sid) db2.stories = some story2 →
        find_one (fun s => s.id == sid)
            (toggle_story_like sid uid db2).1.stories
          = some (if uid ∈ story2.liked_by
              then { story2 with liked_by := pull uid story2.liked_by,
                                 likes := story2.likes - 1 }
              else { story2 with liked_by := add_to_set uid story2.liked_by,
                                 likes := story2.likes + 1 }) := by
  have hchar : ∀ (db2 : Db) (story2 : StoryDoc),
      find_one (fun s => s.id == sid) db2.stories = some story2 →
      find_one (fun s => s.id == sid)
          (toggle_story_like sid uid db2).1.stories
        = some (if uid ∈ story2.liked_by
            then { story2 with liked_by := pull uid story2.liked_by,
                               likes := story2.likes - 1 }
            else { story2 with liked_by := add_to_set uid story2.liked_by,
                               likes := story2.likes + 1 }) := by
    intro db2 story2 hfind2
    have hid : ((story2.id == sid) = true) := (find_one_spec hfind2).2
    unfold toggle_story_like
    simp only [hfind2]
    by_cases hmem : uid ∈ story2.liked_by
    · rw [if_pos hmem]
      rw [find_one_update_first hfind2 (by simpa using hid)]
      simp [hmem]
    · rw [if_neg hmem]
      split
      · rw [find_one_update_first hfind2 (by simpa using hid)]
      · rw [find_one_update_first hfind2 (by simpa using hid)]
  refine ⟨?_, hchar⟩
  have h1 := hchar db story hfind
  rw [if_neg hnot] at h1
  have hadd : add_to_set uid story.liked_by = story.liked_by ++ [uid] := by
    unfold add_to_set
    rw [if_neg hnot]
  rw [hadd] at h1
  have h2 := hchar (toggle_story_like sid uid db).1
    { story with liked_by := story.liked_by ++ [uid],
                 likes := story.likes + 1 } h1
  rw [if_pos (by simp)] at h2
  have hpull : pull uid (story.liked_by ++ [uid]) = story.liked_by := by
    unfold pull
    rw [List.filter_append]
    have hl : story.liked_by.filter (fun y => y ≠ uid) = story.liked_by := by
      apply List.filter_eq_self.mpr
      intro a ha
      simp only [ne_eq, decide_eq_true_eq]
      intro hcontra
      exact hnot (hcontra ▸ ha)
    rw [hl]
    simp
  simp only [hpull] at h2
  have hlikes : story.likes + 1 - 1 = story.likes := by ring
  simp only [hlikes] at h2
  exact h2

/-- Witness for `c7_like_unlike_roundtrip`: like then unlike on a story
with two prior likes restores the stored document. -/
theorem c7_witness :
    let story : StoryDoc :=
      { id := "st7", title := "t", description := "d", author_id := "uA",
        tags := [], mature_content := false, status := .approved,
        created_at := 0, updated_at := 0, published_at := some 0,
        rejection_reason := none, likes := 2, liked_by := ["u1", "u2"],
        total_reads := 0 }
    let db : Db :=
      { users := [], refresh_tokens := [], stories := [story], videos := [],
        shots := [], comments := [] }
    find_one (fun s => s.id == "st7")
        (toggle_story_like "st7" "uX"
          (toggle_story_like "st7" "uX" db).1).1.stories
      = some story
    ∧ ∀ (db2 : Db) (story2 : StoryDoc),
        find_one (fun s => s.id == "st7") db2.stories = some story2 →
        find_one (fun s => s.id == "st7")
            (toggle_story_like "st7" "uX" db2).1.stories
          = some (if "uX" ∈ story2.liked_by
              then { story2 with liked_by := pull "uX" story2.liked_by,
                                 likes := story2.likes - 1 }
              else { story2 with liked_by := add_to_set "uX" story2.liked_by,
                                 likes := story2.likes + 1 }) := by
  intro story db
  exact c7_like_unlike_roundtrip db "st7" "uX" story (by rfl) (by decide)

/-! ## Claim C8: the points recompute -/

theorem update_first_update_first {α : Type} {p : α → Bool} {f : α → α}
    (hf : ∀ a, f (f a) = f a) (hp : ∀ a, p (f a) = p a) (l : List α) :
    update_first p f (update_first p f l) = update_first p f l := by
  induction l with
  | nil => rfl
  | cons x xs ih =>
    by_cases hx : p x = true
    · simp [update_first, hx, hp x, hf x]
    · have hx' : p x = false := by simpa using hx
      simp [update_first, hx', ih]

/-- Claim C8: the recompute stores
`referral_count * 10 + approved_story_count * 1 + (total likes over the
user's stories, videos, comments and shots) // 1000` by overwriting the
points field (a `$set`), and running it twice in a row from the same state
returns the same value and leaves the store exactly as after the first
run. -/
theorem c8_points_recompute_formula_idempotent
    (uid : String) (db : Db) (user : UserDoc)
    (hfind : find_one (fun w => w.id == uid) db.users = some user) :
    (update_user_points uid db).2
      = user.referral_count * 10
        + ((db.stories.filter (fun s => s.author_id == uid
            && s.status == Status.approved)).length : Int) * 1
        + Int.fdiv
            (((db.stories.filter (fun s => s.author_id == uid)).map
                (fun s => s.likes)).sum
              + ((db.videos.filter (fun v => v.author_id == uid)).map
                (fun v => v.likes)).sum
              + ((db.comments.filter (fun c => c.user_id == uid)).map
                (fun c => c.likes)).sum
              + ((db.shots.filter (fun s => s.author_id == uid)).map
                (fun s => s.likes)).sum) 1000
    ∧ find_one (fun w => w.id == uid) (update_user_points uid db).1.users
        = some { user with points := (update_user_points uid db).2 }
    ∧ update_user_points uid (update_user_points uid db).1
        = ((update_user_points uid db).1, (update_user_points uid db).2) := by
  have hid : ((user.id == uid) = true) := (find_one_spec hfind).2
  have hcalc0 : calculate_user_points uid db
      = { referral_points := user.referral_count * 10,
          story_points := ((db.stories.filter (fun s => s.author_id == uid
            && s.status == Status.approved)).length : Int) * 1,
          like_points := Int.fdiv
            (((db.stories.filter (fun s => s.author_id == uid)).map
                (fun s => s.likes)).sum
              + ((db.videos.filter (fun v => v.author_id == uid)).map
                (fun v => v.likes)).sum
              + ((db.comments.filter (fun c => c.user_id == uid)).map
                (fun c => c.likes)).sum
              + ((db.shots.filter (fun s => s.author_id == uid)).map
                (fun s => s.likes)).sum) 1000,
          total_points := user.referral_count * 10
            + ((db.stories.filter (fun s => s.author_id == uid
                && s.status == Status.approved)).length : Int) * 1
            + Int.fdiv
                (((db.stories.filter (fun s => s.author_id == uid)).map
                    (fun s => s.likes)).sum
                  + ((db.videos.filter (fun v => v.author_id == uid)).map
                    (fun v => v.likes)).sum
                  + ((db.comments.filter (fun c => c.user_id == uid)).map
                    (fun c => c.likes)).sum
                  + ((db.shots.filter (fun s => s.author_id == uid)).map
                    (fun s => s.likes)).sum) 1000 } := by
    unfold calculate_user_points
    simp only [hfind]
  have hval : (update_user_points uid db).2
      = (calculate_user_points uid db).total_points := rfl
  have hfind1 : find_one (fun w => w.id == uid)
      (update_user_points uid db).1.users
      = some { user with points := (calculate_user_points uid db).total_points } := by
    show find_one (fun w => w.id == uid)
      (update_first (fun w => w.id == uid)
        (fun w => { w with points := (calculate_user_points uid db).total_points })
        db.users) = _
    rw [find_one_update_first hfind (by simpa using hid)]
  have hcalc1 : calculate_user_points uid (update_user_points uid db).1
      = calculate_user_points uid db := by
    unfold calculate_user_points
    rw [hfind1, hfind]
    rfl
  have husers : (update_user_points uid db).1.users
      = update_first (fun w => w.id == uid)
        (fun w => { w with points := (calculate_user_points uid db).total_points })
        db.users := rfl
  refine ⟨?_, ?_, ?_⟩
  · rw [hval, hcalc0]
  · rw [hval]
    exact hfind1
  · have h1 : (update_user_points uid (update_user_points uid db).1).1
        = (update_user_points uid db).1 := by
      show { (update_user_points uid db).1 with
          users := update_first (fun w => w.id == uid)
            (fun w => { w with points :=
              (calculate_user_points uid
                (update_user_points uid db).1).total_points })
            (update_user_points uid db).1.users }
        = (update_user_points uid db).1
      rw [hcalc1]
      have hidem : update_first (fun w => w.id == uid)
          (fun w => { w with points :=
            (calculate_user_points uid db).total_points })
          ((update_user_points uid db).1.users)
          = (update_user_points uid db).1.users := by
        rw [husers]
        exact @update_first_update_first UserDoc (fun w => w.id == uid)
          (fun w => { w with points :=
            (calculate_user_points uid db).total_points })
          (fun a => rfl) (fun a => rfl) db.users
      rw [hidem]
    have h2 : (update_user_points uid (update_user_points uid db).1).2
        = (update_user_points uid db).2 := by
      show (calculate_user_points uid (update_user_points uid db).1).total_points
        = (update_user_points uid db).2
      rw [hcalc1]
      rfl
    rw [Prod.ext_iff]
    exact ⟨h1, h2⟩

/-- Witness for `c8_points_recompute_formula_idempotent`: one user with
referral_count 2, one approved story with 1500 likes and one pending story
with 700 likes gives `2*10 + 1*1 + (1500+700)//1000 = 23` points, stored
and stable under a second run. -/
theorem c8_witness :
    let u : UserDoc :=
      { id := "u8", username := "carol", role := "user",
        anonymous_name := "C", is_active := true, points := 99,
        referral_count := 2 }
    let s1 : StoryDoc :=
      { id := "sa", title := "a", description := "", author_id := "u8",
        tags := [], mature_content := false, status := .approved,
        created_at := 0, updated_at := 0, published_at := some 0,
        rejection_reason := none, likes := 1500, liked_by := [],
        total_reads := 0 }
    let s2 : StoryDoc :=
      { id := "sb", title := "b", description := "", author_id := "u8",
        tags := [], mature_content := false, status := .pending,
        created_at := 0, updated_at := 0, published_at := none,
        rejection_reason := none, likes := 700, liked_by := [],
        total_reads := 0 }
    let db : Db :=
      { users := [u], refresh_tokens := [], stories := [s1, s2],
        videos := [], shots := [], comments := [] }
    (update_user_points "u8" db).2
      = u.referral_count * 10
        + ((db.stories.filter (fun s => s.author_id == "u8"
            && s.status == Status.approved)).length : Int) * 1
        + Int.fdiv
            (((db.stories.filter (fun s => s.author_id == "u8")).map
                (fun s => s.likes)).sum
              + ((db.videos.filter (fun v => v.author_id == "u8")).map
                (fun v => v.likes)).sum
              + ((db.comments.filter (fun c => c.user_id == "u8")).map
                (fun c => c.likes)).sum
              + ((db.shots.filter (fun s => s.author_id == "u8")).map
                (fun s => s.likes)).sum) 1000
    ∧ find_one (fun w => w.id == "u8") (update_user_points "u8" db).1.users
        = some { u with points := (update_user_points "u8" db).2 }
    ∧ update_user_points "u8" (update_user_points "u8" db).1
        = ((update_user_points "u8" db).1, (update_user_points "u8" db).2) := by
  intro u s1 s2 db
  exact c8_points_recompute_formula_idempotent "u8" db u (by rfl)

/-! ## Claim C10: creation-time status and points -/

/-- Claim C10: a new story is created with status `approved` and
`published_at` stamped, a new video with status `approved` and no
`published_at`; both immediately increment the author's stored points by
1; neither ever starts in `draft`.  Only a new shot starts in `pending`,
with no points awarded. -/
theorem c10_creation_status_and_points
    (title descr caption img : String) (tags : List String) (mature : Bool)
    (author : UserDoc) (now : Nat) (nid : String) (db : Db) (u0 : UserDoc)
    (hfind : find_one (fun w => w.id == author.id) db.users = some u0) :
    ((create_story title descr tags mature author now nid db).2.status
        = Status.approved
      ∧ (create_story title descr tags mature author now nid db).2.published_at
        = some now
      ∧ (create_story title descr tags mature author now nid db).2.status
        ≠ Status.draft
      ∧ find_one (fun w => w.id == author.id)
          (create_story title descr tags mature author now nid db).1.users
        = some { u0 with points := u0.points + 1 })
    ∧ ((create_video caption tags mature author now nid db).2.status
        = Status.approved
      ∧ (create_video caption tags mature author now nid db).2.published_at
        = none
      ∧ (create_video caption tags mature author now nid db).2.status
        ≠ Status.draft
      ∧ find_one (fun w => w.id == author.id)
          (create_video caption tags mature author now nid db).1.users
        = some { u0 with points := u0.points + 1 })
    ∧ ((create_shot caption img tags mature author now nid db).2.status
        = Status.pending
      ∧ (create_shot caption img tags mature author now nid db).1.users
        = db.users) := by
  have hid : ((u0.id == author.id) = true) := (find_one_spec hfind).2
  refine ⟨⟨rfl, rfl, fun h => Status.noConfusion h, ?_⟩,
    ⟨rfl, rfl, fun h => Status.noConfusion h, ?_⟩, rfl, rfl⟩
  · show find_one (fun w => w.id == author.id)
      (update_first (fun w => w.id == author.id)
        (fun w => { w with points := w.points + 1 }) db.users) = _
    rw [find_one_update_first hfind (by simpa using hid)]
  · show find_one (fun w => w.id == author.id)
      (update_first (fun w => w.id == author.id)
        (fun w => { w with points := w.points + 1 }) db.users) = _
    rw [find_one_update_first hfind (by simpa using hid)]

/-- Witness for `c10_creation_status_and_points` at a concrete author and
store. -/
theorem c10_witness :
    let author : UserDoc :=
      { id := "uA", username := "ann", role := "user",
        anonymous_name := "A", is_active := true, points := 3,
        referral_count := 0 }
    let db : Db :=
      { users := [author], refresh_tokens := [], stories := [], videos := [],
        shots := [], comments := [] }
    ((create_story "t" "d" [] false author 11 "nid" db).2.status
        = Status.approved
      ∧ (create_story "t" "d" [] false author 11 "nid" db).2.published_at
        = some 11
      ∧ (create_story "t" "d" [] false author 11 "nid" db).2.status
        ≠ Status.draft
      ∧ find_one (fun w => w.id == "uA")
          (create_story "t" "d" [] false author 11 "nid" db).1.users
        = some { author with points := author.points + 1 })
    ∧ ((create_video "c" [] false author 11 "nid" db).2.status
        = Status.approved
      ∧ (create_video "c" [] false author 11 "nid" db).2.published_at = none
      ∧ (create_video "c" [] false author 11 "nid" db).2.status
        ≠ Status.draft
      ∧ find_one (fun w => w.id == "uA")
          (create_video "c" [] false author 11 "nid" db).1.users
        = some { author with points := author.points + 1 })
    ∧ ((create_shot "c" "i" [] false author 11 "nid" db).2.status
        = Status.pending
      ∧ (create_shot "c" "i" [] false author 11 "nid" db).1.users
        = db.users) := by
  intro author db
  exact c10_creation_status_and_points "t" "d" "c" "i" [] false author 11
    "nid" db author (by rfl)

/-! ## Claim C9: cascading comment deletion

The deletion claim quantifies over descendants at every nesting depth, so
we first define the descendant relation generated by the
`parent_comment_id` links, then show `delete_comment_recursive` (with
enough fuel for the source's unbounded recursion) removes the target
comment and every descendant.  The side conditions — ids unique, no
duplicate documents, and a depth measure witnessing that parent links are
acyclic — are exactly the conditions under which the Python recursion
terminates. -/

/-- `Desc db p z`: the comment with id `z` is a descendant reply (a reply,
a reply of a reply, and so on, at any nesting depth) of the comment with
id `p`, through `parent_comment_id` links between comments in `db`. -/
inductive Desc (db : List CommentDoc) : String → String → Prop where
  | child {p : String} {x : CommentDoc} :
      x ∈ db → x.parent_comment_id = some p → Desc db p x.id
  | step {p q : String} {x : CommentDoc} :
      Desc db p q → x ∈ db → x.parent_comment_id = some q → Desc db p x.id

/-- Any two comments of the collection with the same id are the same
document. -/
def UniqueIds (db : List CommentDoc) : Prop :=
  ∀ x ∈ db, ∀ y ∈ db, x.id = y.id → x = y

/-- `depth` is a depth measure for the parent links: each comment lies one
level below its parent.  Such a measure exists exactly when the parent
links are acyclic, which is when the source's recursion terminates. -/
def DepthOk (db : List CommentDoc) (depth : String → Nat) : Prop :=
  ∀ x ∈ db, ∀ p, x.parent_comment_id = some p → depth x.id = depth p + 1

theorem desc_mono {db db' : List CommentDoc} (h : db' ⊆ db) {p q : String}
    (hd : Desc db' p q) : Desc db p q := by
  induction hd with
  | child hx hp => exact .child (h hx) hp
  | step _ hx hp ih => exact .step ih (h hx) hp

theorem desc_trans {db : List CommentDoc} {p q r : String}
    (h1 : Desc db p q) (h2 : Desc db q r) : Desc db p r := by
  induction h2 with
  | child hx hp => exact .step h1 hx hp
  | step _ hx hp ih => exact .step ih hx hp

theorem desc_depth_lt {db : List CommentDoc} {depth : String → Nat}
    (hd : DepthOk db depth) {p q : String} (h : Desc db p q) :
    depth p < depth q := by
  induction h with
  | child hx hp => rw [hd _ hx _ hp]; omega
  | step _ hx hp ih => rw [hd _ hx _ hp]; omega

theorem desc_bottom_inv {db : List CommentDoc} {p z : String}
    (h : Desc db p z) :
    ∃ x ∈ db, x.id = z ∧ (x.parent_comment_id = some p
      ∨ ∃ q, x.parent_comment_id = some q ∧ Desc db p q) := by
  cases h with
  | child hx hp => exact ⟨_, hx, rfl, .inl hp⟩
  | step hq hx hp => exact ⟨_, hx, rfl, .inr ⟨_, hp, hq⟩⟩

theorem desc_top_inv {db : List CommentDoc} {c z : String}
    (h : Desc db c z) :
    ∃ x ∈ db, x.parent_comment_id = some c ∧ (x.id = z ∨ Desc db x.id z) := by
  induction h with
  | child hx hp => exact ⟨_, hx, hp, .inl rfl⟩
  | step _ hx hp ih =>
    obtain ⟨x0, hx0, hx0p, hcase⟩ := ih
    cases hcase with
    | inl heq =>
      exact ⟨x0, hx0, hx0p, .inr (.child hx (by rw [heq]; exact hp))⟩
    | inr hdesc => exact ⟨x0, hx0, hx0p, .inr (.step hdesc hx hp)⟩

theorem anc_unique {db : List CommentDoc} (hu : UniqueIds db)
    {depth : String → Nat} (hd : DepthOk db depth) :
    ∀ (z x y : String), (x = z ∨ Desc db x z) → (y = z ∨ Desc db y z) →
      depth x = depth y → x = y := by
  suffices h : ∀ (n : Nat) (z x y : String), depth z = n →
      (x = z ∨ Desc db x z) → (y = z ∨ Desc db y z) → depth x = depth y →
      x = y by
    intro z x y h1 h2 h3
    exact h (depth z) z x y rfl h1 h2 h3
  intro n
  induction n using Nat.strong_induction_on with
  | _ n ih =>
    intro z x y hz h1 h2 hxy
    cases h1 with
    | inl he =>
      cases h2 with
      | inl he2 => rw [he, he2]
      | inr hdesc =>
        exfalso
        have hlt := desc_depth_lt hd hdesc
        rw [he] at hxy
        omega
    | inr hdx =>
      cases h2 with
      | inl he2 =>
        exfalso
        have hlt := desc_depth_lt hd hdx
        rw [he2] at hxy
        omega
      | inr hdy =>
        obtain ⟨xc, hxc, hxcid, hxccase⟩ := desc_bottom_inv hdx
        obtain ⟨yc, hyc, hycid, hyccase⟩ := desc_bottom_inv hdy
        have hceq : xc = yc := hu xc hxc yc hyc (by rw [hxcid, hycid])
        subst hceq
        rcases hxccase with hpx | ⟨qx, hqx, hdqx⟩
        · rcases hyccase with hpy | ⟨qy, hqy, hdqy⟩
          · rw [hpx] at hpy
            exact Option.some.inj hpy
          · -- xc.parent = some x and some qy with Desc y qy: so qy = x
            rw [hpx] at hqy
            have hqy' : qy = x := (Option.some.inj hqy).symm
            rw [hqy'] at hdqy
            have hdz : depth z = depth x + 1 := by
              rw [← hxcid]; exact hd xc hxc x hpx
            exact ih (depth x) (by omega) x x y rfl (.inl rfl) (.inr hdqy) hxy
        · rcases hyccase with hpy | ⟨qy, hqy, hdqy⟩
          · rw [hpy] at hqx
            have hqx' : qx = y := (Option.some.inj hqx).symm
            rw [hqx'] at hdqx
            have hdz : depth z = depth y + 1 := by
              rw [← hxcid]; exact hd xc hxc y hpy
            exact ih (depth y) (by omega) y x y rfl (.inr hdqx) (.inl rfl) hxy
          · rw [hqx] at hqy
            have hq' : qy = qx := (Option.some.inj hqy).symm
            rw [hq'] at hdqy
            have hdz : depth z = depth qx + 1 := by
              rw [← hxcid]; exact hd xc hxc qx hqx
            exact ih (depth qx) (by omega) qx x y rfl (.inr hdqx) (.inr hdqy)
              hxy

theorem del_rec_zero (c : String) (db : List CommentDoc) :
    delete_comment_recursive 0 c db = db := rfl

theorem del_rec_succ (n : Nat) (c : String) (db : List CommentDoc) :
    delete_comment_recursive (n + 1) c db
      = delete_one (fun c' => c'.id == c)
          ((db.filter (fun c' => c'.parent_comment_id == some c)).foldl
            (fun acc reply => delete_comment_recursive n reply.id acc) db) :=
  rfl

theorem del_rec_sublist (n : Nat) (c : String) (db : List CommentDoc) :
    (delete_comment_recursive n c db).Sublist db := by
  induction n generalizing c db with
  | zero => exact List.Sublist.refl db
  | succ n ih =>
    rw [del_rec_succ]
    have hfold : ∀ (rs : List CommentDoc) (acc : List CommentDoc),
        (rs.foldl (fun a reply => delete_comment_recursive n reply.id a)
          acc).Sublist acc := by
      intro rs
      induction rs with
      | nil => intro acc; exact List.Sublist.refl acc
      | cons r rs ihr =>
        intro acc
        exact (ihr (delete_comment_recursive n r.id acc)).trans (ih r.id acc)
    exact (List.eraseP_sublist _).trans (hfold _ db)

theorem fold_del_sublist (n : Nat) (rs : List CommentDoc)
    (acc : List CommentDoc) :
    (rs.foldl (fun a reply => delete_comment_recursive n reply.id a)
      acc).Sublist acc := by
  induction rs generalizing acc with
  | nil => exact List.Sublist.refl acc
  | cons r rs ihr =>
    exact (ihr (delete_comment_recursive n r.id acc)).trans
      (del_rec_sublist n r.id acc)

theorem eraseP_pred_of_not_mem {α : Type} {p : α → Bool} {l : List α} {z : α}
    (hz : z ∈ l) (hnot : z ∉ l.eraseP p) : p z = true := by
  induction l with
  | nil => cases hz
  | cons x xs ih =>
    by_cases hx : p x = true
    · rw [List.eraseP_cons_of_pos hx] at hnot
      cases hz with
      | head => exact hx
      | tail _ hmem => exact absurd hmem hnot
  -- the match in the last line refers to membership constructors of z ∈ x :: xs
    · rw [List.eraseP_cons_of_neg hx] at hnot
      cases hz with
      | head => exact absurd (List.mem_cons_self _ _) hnot
      | tail _ hmem =>
        exact ih hmem (fun hc => hnot (List.mem_cons_of_mem _ hc))

theorem fold_removed_desc {db : List CommentDoc} {n : Nat}
    (hstep : ∀ (c : String) (l : List CommentDoc) (z : CommentDoc), z ∈ l →
      z ∉ delete_comment_recursive n c l → z.id = c ∨ Desc l c z.id) :
    ∀ (rs acc : List CommentDoc), acc ⊆ db → ∀ w ∈ acc,
      w ∉ rs.foldl (fun a reply => delete_comment_recursive n reply.id a) acc →
      ∃ r ∈ rs, w.id = r.id ∨ Desc db r.id w.id := by
  intro rs
  induction rs with
  | nil =>
    intro acc _ w hw hnw
    exact absurd hw hnw
  | cons r rs ihr =>
    intro acc hsub w hw hnw
    by_cases hw1 : w ∈ delete_comment_recursive n r.id acc
    · obtain ⟨r', hr', hcase⟩ := ihr (delete_comment_recursive n r.id acc)
        (fun a ha => hsub ((del_rec_sublist n r.id acc).subset ha)) w hw1 hnw
      exact ⟨r', List.mem_cons_of_mem _ hr', hcase⟩
    · cases hstep r.id acc w hw hw1 with
      | inl h => exact ⟨r, List.mem_cons_self _ _, .inl h⟩
      | inr h => exact ⟨r, List.mem_cons_self _ _, .inr (desc_mono hsub h)⟩

theorem del_rec_removed (n : Nat) :
    ∀ (c : String) (db : List CommentDoc) (z : CommentDoc), z ∈ db →
      z ∉ delete_comment_recursive n c db → z.id = c ∨ Desc db c z.id := by
  induction n with
  | zero =>
    intro c db z hz hnot
    rw [del_rec_zero] at hnot
    exact absurd hz hnot
  | succ n ih =>
    intro c db z hz hnot
    rw [del_rec_succ] at hnot
    by_cases hz1 : z ∈ (db.filter
        (fun c' => c'.parent_comment_id == some c)).foldl
        (fun a reply => delete_comment_recursive n reply.id a) db
    · left
      have hp := eraseP_pred_of_not_mem hz1 hnot
      simpa using hp
    · obtain ⟨r, hrR, hcase⟩ :=
        fold_removed_desc ih
          (db.filter (fun c' => c'.parent_comment_id == some c)) db
          (fun a ha => ha) z hz hz1
      have hrdb := List.mem_filter.mp hrR
      have hrp : r.parent_comment_id = some c := by simpa using hrdb.2
      have hchild : Desc db c r.id := .child hrdb.1 hrp
      right
      cases hcase with
      | inl h => rw [h]; exact hchild
      | inr h => exact desc_trans hchild h

theorem desc_transfer {db : List CommentDoc} (hu : UniqueIds db)
    {depth : String → Nat} (hd : DepthOk db depth) (n : Nat)
    {db' : List CommentDoc} (hsub : db'.Sublist db)
    {c : String} {x : CommentDoc} (hx : x ∈ db')
    (hxp : x.parent_comment_id = some c)
    {R1 : List CommentDoc}
    (hR1 : ∀ r ∈ R1, r ∈ db' ∧ r.parent_comment_id = some c)
    (hxid : ∀ r ∈ R1, r.id ≠ x.id) :
    ∀ z, Desc db' x.id z →
      (∃ w ∈ R1.foldl (fun a reply => delete_comment_recursive n reply.id a)
        db', w.id = z) →
      Desc (R1.foldl (fun a reply => delete_comment_recursive n reply.id a)
        db') x.id z := by
  intro z hdesc
  induction hdesc with
  | child hw0 hw0p =>
    rintro ⟨w, hwmem, hwid⟩
    have hweq : w = _ := hu w
      (hsub.subset ((fold_del_sublist n R1 db').subset hwmem)) _
      (hsub.subset hw0) hwid
    rw [← hweq] at hw0p ⊢
    exact .child hwmem hw0p
  | step hq hw0 hw0p ih =>
    rintro ⟨w, hwmem, hwid⟩
    have hweq : w = _ := hu w
      (hsub.subset ((fold_del_sublist n R1 db').subset hwmem)) _
      (hsub.subset hw0) hwid
    obtain ⟨u0, hu0, hu0id, _⟩ := desc_bottom_inv hq
    by_cases hu0in : u0 ∈ R1.foldl
        (fun a reply => delete_comment_recursive n reply.id a) db'
    · have hdq := ih ⟨u0, hu0in, hu0id⟩
      rw [← hweq] at hw0p ⊢
      exact .step hdq hwmem hw0p
    · exfalso
      obtain ⟨r, hrR1, hcase⟩ :=
        fold_removed_desc (fun c0 l z0 => del_rec_removed n c0 l z0) R1 db'
          hsub.subset u0 hu0 hu0in
      have hrd := hR1 r hrR1
      have hdepthr : depth r.id = depth c + 1 :=
        hd r (hsub.subset hrd.1) c hrd.2
      have hdepthx : depth x.id = depth c + 1 := hd x (hsub.subset hx) c hxp
      have hrq : r.id = u0.id ∨ Desc db r.id u0.id := by
        cases hcase with
        | inl h => exact .inl h.symm
        | inr h => exact .inr h
      have hxq : Desc db x.id u0.id := by
        rw [hu0id]
        exact desc_mono hsub.subset hq
      have hdx : x.id = r.id :=
        anc_unique hu hd u0.id x.id r.id (.inr hxq) hrq
          (by rw [hdepthx, hdepthr])
      exact hxid r hrR1 hdx.symm

theorem del_rec_main {db : List CommentDoc} (hu : UniqueIds db)
    (hnd : db.Nodup) {depth : String → Nat} (hd : DepthOk db depth) :
    ∀ (n : Nat) (db' : List CommentDoc), db'.Sublist db →
    ∀ (c : String) (d : CommentDoc), d ∈ delete_comment_recursive n c db' →
    (d.id = c ∨ Desc db' c d.id) → depth d.id < depth c + n → False := by
  intro n
  induction n with
  | zero =>
    intro db' hsub c d hmem hcase hdepth
    cases hcase with
    | inl h => rw [h] at hdepth; omega
    | inr h =>
      have hlt := desc_depth_lt hd (desc_mono hsub.subset h)
      omega
  | succ n ih =>
    intro db' hsub c d hmem hcase hdepth
    rw [del_rec_succ] at hmem
    simp only [delete_one] at hmem
    cases hcase with
    | inl hidc =>
      have hmem1 : d ∈ (db'.filter
          (fun c' => c'.parent_comment_id == some c)).foldl
          (fun a reply => delete_comment_recursive n reply.id a) db' :=
        (List.eraseP_sublist _).subset hmem
      have hnd1 : ((db'.filter
          (fun c' => c'.parent_comment_id == some c)).foldl
          (fun a reply => delete_comment_recursive n reply.id a)
          db').Nodup :=
        ((fold_del_sublist n _ db').trans hsub).nodup hnd
      have hpd : (fun c' : CommentDoc => c'.id == c) d = true := by
        simpa using hidc
      obtain ⟨ad, l1, l2, hl1, hpa, heq, herase⟩ :=
        @List.exists_of_eraseP CommentDoc (fun c' => c'.id == c) _ d hmem1 hpd
      rw [herase] at hmem
      have hamem : ad ∈ (db'.filter
          (fun c' => c'.parent_comment_id == some c)).foldl
          (fun a reply => delete_comment_recursive n reply.id a) db' := by
        rw [heq]
        exact List.mem_append.mpr (.inr (List.mem_cons_self _ _))
      have hadb : ad ∈ db :=
        hsub.subset ((fold_del_sublist n _ db').subset hamem)
      have hddb : d ∈ db :=
        hsub.subset ((fold_del_sublist n _ db').subset hmem1)
      have hade : ad = d := hu ad hadb d hddb
        (by
          have h1 : ad.id = c := by simpa using hpa
          rw [h1, hidc])
      rw [heq, hade] at hnd1
      have hdl2 : d ∉ l2 :=
        (List.nodup_cons.mp
          ((List.sublist_append_right l1 (d :: l2)).nodup hnd1)).1
      cases List.mem_append.mp hmem with
      | inl h => exact hl1 d h hpd
      | inr h => exact hdl2 h
    | inr hdesc' =>
      obtain ⟨x, hxdb', hxp, hxcase⟩ := desc_top_inv hdesc'
      have hxR : x ∈ db'.filter
          (fun c' => c'.parent_comment_id == some c) :=
        List.mem_filter.mpr ⟨hxdb', by simp [hxp]⟩
      obtain ⟨R1, R2, hRsplit⟩ := List.append_of_mem hxR
      rw [hRsplit, List.foldl_append, List.foldl_cons] at hmem
      -- names for the intermediate stores
      have hsubDB1 : (R1.foldl
          (fun a reply => delete_comment_recursive n reply.id a)
          db').Sublist db' := fold_del_sublist n R1 db'
      have hsubDBM : (delete_comment_recursive n x.id
          (R1.foldl (fun a reply => delete_comment_recursive n reply.id a)
            db')).Sublist
          (R1.foldl (fun a reply => delete_comment_recursive n reply.id a)
            db') := del_rec_sublist n x.id _
      have hdmem : d ∈ delete_comment_recursive n x.id
          (R1.foldl (fun a reply => delete_comment_recursive n reply.id a)
            db') :=
        (fold_del_sublist n R2 _).subset ((List.eraseP_sublist _).subset hmem)
      have hRnodup : (db'.filter
          (fun c' => c'.parent_comment_id == some c)).Nodup :=
        (List.filter_sublist db').nodup (hsub.nodup hnd)
      have hxnotR1 : x ∉ R1 := by
        rw [hRsplit] at hRnodup
        intro hcontra
        exact (List.disjoint_of_nodup_append hRnodup) hcontra
          (List.mem_cons_self _ _)
      have hR1prop : ∀ r ∈ R1, r ∈ db' ∧ r.parent_comment_id = some c := by
        intro r hr
        have hrR : r ∈ db'.filter
            (fun c' => c'.parent_comment_id == some c) := by
          rw [hRsplit]
          exact List.mem_append.mpr (.inl hr)
        have := List.mem_filter.mp hrR
        exact ⟨this.1, by simpa using this.2⟩
      have hxid : ∀ r ∈ R1, r.id ≠ x.id := by
        intro r hr hcontra
        have hrdb : r ∈ db := hsub.subset (hR1prop r hr).1
        have hxdb : x ∈ db := hsub.subset hxdb'
        have : r = x := hu r hrdb x hxdb hcontra
        rw [this] at hr
        exact hxnotR1 hr
      have hdx1 : depth x.id = depth c + 1 := hd x (hsub.subset hxdb') c hxp
      cases hxcase with
      | inl hxidd =>
        have hdd : depth d.id = depth x.id := by rw [hxidd]
        exact ih (R1.foldl
            (fun a reply => delete_comment_recursive n reply.id a) db')
          (hsubDB1.trans hsub) x.id d hdmem (.inl hxidd.symm) (by omega)
      | inr hdescx =>
        have htrans := desc_transfer hu hd n hsub hxdb' hxp hR1prop hxid
          d.id hdescx ⟨d, hsubDBM.subset hdmem, rfl⟩
        have hltd := desc_depth_lt hd (desc_mono hsub.subset hdescx)
        exact ih (R1.foldl
            (fun a reply => delete_comment_recursive n reply.id a) db')
          (hsubDB1.trans hsub) x.id d hdmem (.inr htrans) (by omega)

/-- Claim C9: a successful comment delete removes the comment and every
descendant reply — replies of replies, at every nesting depth — from the
comments collection.  The hypotheses are the conditions under which the
source's unbounded recursion terminates: ids are unique, no document is
stored twice, and a depth measure witnesses that the parent links are
acyclic (with every comment's depth within the fuel supplied by the
handler, one more than the collection size). -/
theorem c9_delete_comment_cascades
    (db : Db) (caller : UserDoc) (cid : String) (depth : String → Nat)
    (comment : CommentDoc)
    (hu : UniqueIds db.comments)
    (hnd : db.comments.Nodup)
    (hd : DepthOk db.comments depth)
    (hdeep : ∀ x ∈ db.comments,
      depth x.id < depth cid + (db.comments.length + 1))
    (hfind : find_one (fun c => c.id == cid) db.comments = some comment)
    (hauth : (comment.user_id != caller.id && caller.role != "admin")
      = false) :
    (delete_comment cid caller db).2 = .ok "Comment deleted successfully"
    ∧ ∀ d ∈ (delete_comment cid caller db).1.comments,
        d.id ≠ cid ∧ ¬ Desc db.comments cid d.id := by
  have hroute1 : (delete_comment cid caller db).1.comments
      = delete_comment_recursive (db.comments.length + 1) cid
          db.comments := by
    unfold delete_comment
    simp only [hfind, hauth]
    rfl
  have hroute2 : (delete_comment cid caller db).2
      = .ok "Comment deleted successfully" := by
    unfold delete_comment
    simp only [hfind, hauth]
    rfl
  refine ⟨hroute2, ?_⟩
  intro d hdm
  rw [hroute1] at hdm
  have hdd : d ∈ db.comments := (del_rec_sublist _ _ _).subset hdm
  constructor
  · intro hcontra
    exact del_rec_main hu hnd hd (db.comments.length + 1) db.comments
      (List.Sublist.refl _) cid d hdm (.inl hcontra) (hdeep d hdd)
  · intro hcontra
    exact del_rec_main hu hnd hd (db.comments.length + 1) db.comments
      (List.Sublist.refl _) cid d hdm (.inr hcontra) (hdeep d hdd)

/-- Witness for `c9_delete_comment_cascades`: deleting the root of a
three-level thread (c1 ← c2 ← c3) next to an unrelated comment c4, as the
root's owner. -/
theorem c9_witness :
    let mk := fun (i : String) (par : Option String) (uid : String) =>
      ({ id := i, content := "x", story_id := some "st", video_id := none,
         chapter_id := none, parent_comment_id := par, user_id := uid,
         likes := 0, upvotes := 0, downvotes := 0, created_at := 0,
         updated_at := 0 } : CommentDoc)
    let c1 := mk "c1" none "uO"
    let c2 := mk "c2" (some "c1") "uP"
    let c3 := mk "c3" (some "c2") "uQ"
    let c4 := mk "c4" none "uP"
    let owner : UserDoc :=
      { id := "uO", username := "o", role := "user", anonymous_name := "O",
        is_active := true, points := 0, referral_count := 0 }
    let db : Db :=
      { users := [owner], refresh_tokens := [], stories := [], videos := [],
        shots := [], comments := [c1, c2, c3, c4] }
    let dw := fun (s : String) =>
      if s = "c2" then 1 else if s = "c3" then 2 else 0
    (delete_comment "c1" owner db).2 = .ok "Comment deleted successfully"
    ∧ ∀ d ∈ (delete_comment "c1" owner db).1.comments,
        d.id ≠ "c1" ∧ ¬ Desc db.comments "c1" d.id := by
  intro mk c1 c2 c3 c4 owner db dw
  refine c9_delete_comment_cascades db owner "c1" dw c1
    (by unfold UniqueIds; decide)
    (by decide) ?_ (by decide) (by rfl) (by decide)
  intro x hx p hp
  fin_cases hx
  · exact absurd hp (by simp [mk])
  · have hp2 : p = "c1" := by
      simp [mk] at hp
      exact hp.symm
    subst hp2
    simp [mk, dw]
  · have hp3 : p = "c2" := by
      simp [mk] at hp
      exact hp.symm
    subst hp3
    simp [mk, dw]
  · exact absurd hp (by simp [mk])

end KnotPad
